import Mathlib

/-!
Verification of the location-tracking session manager of the
`syncrodrive-platform` repository (`src/pages/Tracking.tsx`), against its
natural-language specification.

Shallow embedding conventions:
* Latitude/longitude (JS float64, only ever compared against `0` here) are
  modelled as `Rat`.
* `new Date().getHours()` is passed in as a `Nat` parameter `timeOfDay`;
  `navigator.onLine` as a `Bool` parameter `online`.
* Collaborator outcomes (auth session present, Capacitor permission results,
  whether each provider call throws, the watch ids the providers return) are
  environment records supplied to each handler invocation.
* Calls into the geolocation providers and toast notifications are collected
  into explicit logs so that claims about "no provider call is made" or
  "reported exactly once" are statements about those logs.
-/

namespace SyncroDrive

/-! ### InsightEngine (`generateLocalInsight`, Tracking.tsx lines 55-84) -/

def baselineClause : String :=
  "Drive safely and maintain proper distance from other vehicles. "

def nightClause : String :=
  "It\x27s dark outside - ensure your headlights are on and be extra vigilant. "

def morningRushClause : String :=
  "Morning rush hour - expect increased traffic. "

def eveningRushClause : String :=
  "Evening rush hour - stay alert for heavy traffic. "

def northernClause : String :=
  "Driving in the Northern Hemisphere - watch for seasonal weather changes. "

def southernClause : String :=
  "Driving in the Southern Hemisphere - watch for seasonal weather changes. "

def onlineClause : String :=
  "You\x27re connected - real-time traffic data is available. "

def offlineClause : String :=
  "You\x27re offline - drive with extra caution as traffic data is unavailable. "

/-- The `generateLocalInsight` function from Tracking.tsx: builds the advisory
by appending clauses to `basicInsight` in source order (time band, hemisphere,
connectivity).  Here `timeOfDay` is the value of `new Date().getHours()` and
`online` the value of `navigator.onLine`. -/
def generateLocalInsight (latitude longitude : Rat) (timeOfDay : Nat)
    (online : Bool) : String :=
  let basicInsight := baselineClause
  let basicInsight :=
    if 20 ≤ timeOfDay ∨ timeOfDay ≤ 5 then basicInsight ++ nightClause
    else if 6 ≤ timeOfDay ∧ timeOfDay ≤ 9 then basicInsight ++ morningRushClause
    else if 16 ≤ timeOfDay ∧ timeOfDay ≤ 19 then basicInsight ++ eveningRushClause
    else basicInsight
  let basicInsight :=
    if 0 < latitude then basicInsight ++ northernClause
    else basicInsight ++ southernClause
  let basicInsight :=
    if online then basicInsight ++ onlineClause
    else basicInsight ++ offlineClause
  basicInsight

/-- The time-of-day clause of the advisory, read off the same conditions as
the first if-chain of the source (empty when no band matches). -/
def timeClause (timeOfDay : Nat) : String :=
  if 20 ≤ timeOfDay ∨ timeOfDay ≤ 5 then nightClause
  else if 6 ≤ timeOfDay ∧ timeOfDay ≤ 9 then morningRushClause
  else if 16 ≤ timeOfDay ∧ timeOfDay ≤ 19 then eveningRushClause
  else ""

/-- The connectivity clause of the advisory. -/
def connectivityClause (online : Bool) : String :=
  if online then onlineClause else offlineClause

/-- Decomposition of the advisory into its four clause positions (the source
appends the clauses left to right, so the concatenation is left-nested). -/
theorem generateLocalInsight_eq (latitude longitude : Rat) (timeOfDay : Nat)
    (online : Bool) :
    generateLocalInsight latitude longitude timeOfDay online =
      baselineClause ++ timeClause timeOfDay ++
        (if 0 < latitude then northernClause else southernClause) ++
        connectivityClause online := by
  unfold generateLocalInsight timeClause connectivityClause
  split_ifs <;> simp [String.append_empty]

/-- Claim C6: for a sample with latitude 10, longitude 20, local time 07:30
(hour 7) and connectivity online, the advisory is exactly the concatenation of
the baseline safe-following-distance clause, the morning-rush clause, the
northern-hemisphere clause and the online clause, in this order, with no other
clauses. -/
theorem insight_morning_northern_online :
    generateLocalInsight 10 20 7 true =
      baselineClause ++ morningRushClause ++ northernClause ++ onlineClause := by
  rw [generateLocalInsight_eq]
  norm_num [timeClause, connectivityClause]

/-- Claim C7: the hemisphere clause of the advisory is the northern note
exactly when the latitude is positive and the southern note when the latitude
is at most zero; at latitude exactly 0 the southern note is selected. -/
theorem hemisphere_clause_selection (latitude longitude : Rat)
    (timeOfDay : Nat) (online : Bool) :
    generateLocalInsight latitude longitude timeOfDay online =
      baselineClause ++ timeClause timeOfDay ++
        (if 0 < latitude then northernClause else southernClause) ++
        connectivityClause online
    ∧ (latitude ≤ 0 →
        generateLocalInsight latitude longitude timeOfDay online =
          baselineClause ++ timeClause timeOfDay ++ southernClause ++
            connectivityClause online)
    ∧ generateLocalInsight 0 longitude timeOfDay online =
        baselineClause ++ timeClause timeOfDay ++ southernClause ++
          connectivityClause online := by
  refine ⟨generateLocalInsight_eq .., ?_, ?_⟩
  · intro hle
    rw [generateLocalInsight_eq, if_neg (not_lt.mpr hle)]
  · rw [generateLocalInsight_eq, if_neg (lt_irrefl 0)]

/-! ### TrackingSession data model (Tracking.tsx lines 21-26, 86-212)

The component state is the four `useState` cells.  `watchId` in the source has
type `string | number | null`: the Capacitor `watchPosition` resolves with a
string id, the browser `watchPosition` returns a numeric id. -/

/-- A provider watch handle: `string | number` in the source. -/
inductive WatchId
  | cap (id : String)
  | web (id : Nat)
deriving DecidableEq

/-- The four `useState` cells of the component: `location`, `isTracking`,
`aiSuggestion`, `watchId`. -/
structure TrackState where
  location : Option (Rat × Rat)
  isTracking : Bool
  aiSuggestion : String
  watchId : Option WatchId
deriving DecidableEq

/-- The state of the initial render: `null`, `false`, `""`, `null`. -/
def TrackState.init : TrackState :=
  { location := none, isTracking := false, aiSuggestion := "", watchId := none }

/-- The unconditional reset performed at the end of `stopTracking`
(Tracking.tsx lines 196-198): `setWatchId(null)`, `setIsTracking(false)`,
`setAiSuggestion("")`. -/
def resetTrack (t : TrackState) : TrackState :=
  { t with watchId := none, isTracking := false, aiSuggestion := "" }

/-- One call into a geolocation provider, as logged by the model.  The two
watch constructors record the options object passed
(`enableHighAccuracy`, `timeout` in milliseconds). -/
inductive ProviderCall
  | checkPermissions
  | requestPermissions
  | capacitorWatch (enableHighAccuracy : Bool) (timeoutMs : Nat)
  | browserWatch (enableHighAccuracy : Bool) (timeoutMs : Nat)
  | capacitorClearWatch (id : WatchId)
  | browserClearWatch (id : WatchId)
deriving DecidableEq

/-- A toast notification `(variant, title, description)`;
`destructive = true` is the error variant. -/
structure Toast where
  destructive : Bool
  title : String
  description : String
deriving DecidableEq

def authRequiredToast : Toast :=
  ⟨true, "Authentication Required", "Please log in to start tracking"⟩

def trackingStartedToast : Toast :=
  ⟨false, "Tracking Started", "Your location is now being tracked in real-time"⟩

def startFailedToast : Toast :=
  ⟨true, "Error", "Failed to start location tracking"⟩

def locationErrorToast : Toast :=
  ⟨true, "Error", "Failed to get location. Please enable location services."⟩

def trackingStoppedToast : Toast :=
  ⟨false, "Tracking Stopped", "Location tracking has been stopped"⟩

/-- Collaborator outcomes for one `startTracking` invocation: whether the auth
session exists, how the Capacitor permission calls behave, whether each
provider watch call succeeds and with which handle.  `capacitorWatchId =
none` means `Geolocation.watchPosition` rejects; `browserWatchId = none` means
`navigator.geolocation.watchPosition` throws synchronously. -/
structure StartEnv where
  hasSession : Bool
  checkPermissionsThrows : Bool
  permissionGranted : Bool
  requestPermissionsThrows : Bool
  capacitorWatchId : Option String
  browserGeolocationAvailable : Bool
  browserWatchId : Option Nat
deriving DecidableEq

/-- The body of the inner `try` (Tracking.tsx lines 101-127): check
permissions, request them when not granted (the result of the request is not
inspected by the source), then `Geolocation.watchPosition` with
`{enableHighAccuracy: true, timeout: 1000}`.  Returns the provider calls made
and `some id` on success, `none` when any of the awaited calls threw. -/
def primaryAttempt (env : StartEnv) : List ProviderCall × Option String :=
  if env.checkPermissionsThrows then ([ProviderCall.checkPermissions], none)
  else if env.permissionGranted then
    ([ProviderCall.checkPermissions, ProviderCall.capacitorWatch true 1000],
     env.capacitorWatchId)
  else if env.requestPermissionsThrows then
    ([ProviderCall.checkPermissions, ProviderCall.requestPermissions], none)
  else
    ([ProviderCall.checkPermissions, ProviderCall.requestPermissions,
      ProviderCall.capacitorWatch true 1000],
     env.capacitorWatchId)

/-- Result of one handler invocation: the new component state plus the logged
provider calls, toasts, and whether `navigate("/login")` ran. -/
structure HandlerOut where
  track : TrackState
  calls : List ProviderCall
  toasts : List Toast
  navigatedToLogin : Bool
deriving DecidableEq

/-- The `startTracking` handler (Tracking.tsx lines 86-179).  Auth guard first; then the
Capacitor attempt; on its failure the browser fallback with the same options —
but only when `geolocation in navigator`, otherwise control falls through to
`setIsTracking(true)` and the success toast with no watch opened.  A
synchronous throw from the browser `watchPosition` lands in the outer catch,
which shows the start-failure toast and leaves the state untouched. -/
def startTracking (env : StartEnv) (s : TrackState) : HandlerOut :=
  if env.hasSession = false then
    { track := s, calls := [], toasts := [authRequiredToast],
      navigatedToLogin := true }
  else
    match primaryAttempt env with
    | (calls, some wid) =>
        { track := { s with watchId := some (WatchId.cap wid), isTracking := true },
          calls := calls, toasts := [trackingStartedToast],
          navigatedToLogin := false }
    | (calls, none) =>
        if env.browserGeolocationAvailable then
          match env.browserWatchId with
          | some n =>
              { track := { s with watchId := some (WatchId.web n), isTracking := true },
                calls := calls ++ [ProviderCall.browserWatch true 1000],
                toasts := [trackingStartedToast], navigatedToLogin := false }
          | none =>
              { track := s,
                calls := calls ++ [ProviderCall.browserWatch true 1000],
                toasts := [startFailedToast], navigatedToLogin := false }
        else
          { track := { s with isTracking := true }, calls := calls,
            toasts := [trackingStartedToast], navigatedToLogin := false }

/-- Collaborator outcomes for one `stopTracking` invocation: whether
`Geolocation.clearWatch` rejects (its inner catch then calls the browser
`clearWatch`) and whether that browser call throws (caught by the outer
catch, which only logs). -/
structure StopEnv where
  capacitorClearThrows : Bool
  browserClearThrows : Bool
deriving DecidableEq

/-- The `stopTracking` handler (Tracking.tsx lines 181-203), with the watch id the
invoking closure reads made explicit (`closureWatchId`): the handler invoked
from the UI reads the `watchId` of the current state, while the effect cleanup
invokes it with the id captured at effect registration.  Whatever the guarded
clear calls do, the state reset (`setWatchId(null)`, `setIsTracking(false)`,
`setAiSuggestion("")`) and the stop toast run unconditionally afterwards. -/
def stopTrackingWith (env : StopEnv) (closureWatchId : Option WatchId)
    (s : TrackState) : HandlerOut :=
  let calls :=
    match closureWatchId with
    | none => []
    | some wid =>
        if env.capacitorClearThrows then
          [ProviderCall.capacitorClearWatch wid, ProviderCall.browserClearWatch wid]
        else
          [ProviderCall.capacitorClearWatch wid]
  { track := { s with watchId := none, isTracking := false, aiSuggestion := "" },
    calls := calls, toasts := [trackingStoppedToast], navigatedToLogin := false }

/-- The `stopTracking` handler as invoked by the UI: its closure reads the
`watchId` of the current state. -/
def stopTracking (env : StopEnv) (s : TrackState) : HandlerOut :=
  stopTrackingWith env s.watchId s

/-- The watch success callback (Tracking.tsx lines 110-126 and 133-147,
identical for both providers): store the location, recompute the advisory.
The fire-and-forget `saveTrack` persistence write does not touch the
component state and no claim concerns it, so it is not logged. -/
def onPositionSample (lat lon : Rat) (timeOfDay : Nat) (online : Bool)
    (s : TrackState) : TrackState :=
  { s with location := some (lat, lon),
           aiSuggestion := generateLocalInsight lat lon timeOfDay online }

/-! ### React effect lifecycle (Tracking.tsx lines 205-212)

```
useEffect(() => {
  return () => { if (watchId !== null) stopTracking(); };
}, [watchId]);
```

React semantics for an effect with dependency list `[watchId]`: on every
commit whose rendered `watchId` differs from the one the current effect was
registered with, the registered cleanup runs first — with the closures of its
own render, so it reads the `watchId` of that older render — and then the
effect re-registers, capturing the newly rendered `watchId`.  On unmount the
currently registered cleanup runs.  `setState` calls made inside a cleanup
update the live state and schedule a further commit. -/

/-- Component state plus the dependency value the currently registered effect
cleanup closed over (`regWatchId` is the `watchId` of the render at which the
effect last ran). -/
structure CompState where
  track : TrackState
  regWatchId : Option WatchId
deriving DecidableEq

/-- The state after the mount commit: the effect has run once, capturing
`watchId = null`. -/
def CompState.init : CompState :=
  { track := TrackState.init, regWatchId := none }

/-- One commit of the `[watchId]` effect: when the rendered `watchId` differs
from the registered dependency, run the registered cleanup (whose closure
reads the old `watchId`, hence `stopTrackingWith` at that stale id) and
re-register at the rendered `watchId`. -/
def effectCommit (env : StopEnv) (c : CompState) :
    CompState × List ProviderCall × List Toast :=
  if c.track.watchId = c.regWatchId then (c, [], [])
  else
    match c.regWatchId with
    | none => ({ track := c.track, regWatchId := c.track.watchId }, [], [])
    | some w =>
        let out := stopTrackingWith env (some w) c.track
        ({ track := out.track, regWatchId := c.track.watchId },
         out.calls, out.toasts)

/-- Run effect commits until the component is quiescent.  A cleanup can change
`watchId` (it nulls it), which schedules one more commit; two commits always
reach the fixpoint (`effectCommit_settle_fix` below). -/
def settle (env : StopEnv) (c : CompState) :
    CompState × List ProviderCall × List Toast :=
  let r1 := effectCommit env c
  let r2 := effectCommit env r1.1
  (r2.1, r1.2.1 ++ r2.2.1, r1.2.2 ++ r2.2.2)

theorem effectCommit_eq_self (env : StopEnv) {c : CompState}
    (h : c.track.watchId = c.regWatchId) : effectCommit env c = (c, [], []) := by
  simp [effectCommit, h]

theorem effectCommit_reg_none (env : StopEnv) {c : CompState}
    (hreg : c.regWatchId = none) (h : c.track.watchId ≠ none) :
    effectCommit env c =
      ({ track := c.track, regWatchId := c.track.watchId }, [], []) := by
  rw [effectCommit, hreg]
  simp [h]

theorem effectCommit_reg_some (env : StopEnv) {c : CompState} {w : WatchId}
    (hreg : c.regWatchId = some w) (h : c.track.watchId ≠ some w) :
    effectCommit env c =
      ({ track := resetTrack c.track, regWatchId := c.track.watchId },
       (if env.capacitorClearThrows then
          [ProviderCall.capacitorClearWatch w, ProviderCall.browserClearWatch w]
        else [ProviderCall.capacitorClearWatch w]),
       [trackingStoppedToast]) := by
  rw [effectCommit, hreg]
  simp [h, stopTrackingWith, resetTrack]

/-- After `settle`, the rendered `watchId` agrees with the registered
dependency again. -/
theorem settle_quiescent (env : StopEnv) (c : CompState) :
    (settle env c).1.track.watchId = (settle env c).1.regWatchId := by
  unfold settle
  by_cases h1 : c.track.watchId = c.regWatchId
  · simp only [effectCommit_eq_self env h1]
    exact h1
  · rcases hreg : c.regWatchId with _ | w
    · have h : c.track.watchId ≠ none := by rw [hreg] at h1; exact h1
      simp only [effectCommit_reg_none env hreg h]
      rw [effectCommit_eq_self env rfl]
    · have h : c.track.watchId ≠ some w := by rw [hreg] at h1; exact h1
      simp only [effectCommit_reg_some env hreg h]
      rcases hw : c.track.watchId with _ | w2
      · rw [effectCommit_eq_self env rfl]
        rfl
      · rw [effectCommit_reg_some env rfl (by simp [resetTrack])]
        rfl

/-- After `settle`, a further commit does nothing: two effect commits always
quiesce the component. -/
theorem effectCommit_settle_fix (env env2 : StopEnv) (c : CompState) :
    effectCommit env2 (settle env c).1 = ((settle env c).1, [], []) :=
  effectCommit_eq_self env2 (settle_quiescent env c)

/-- One UI or provider event, carrying the collaborator outcomes for the
calls that event makes.  `cleanupEnv` is used by any `stopTracking` run from
the effect cleanup during the commits that follow the handler. -/
inductive Event
  | start (env : StartEnv) (cleanupEnv : StopEnv)
  | stop (env : StopEnv) (cleanupEnv : StopEnv)
  | sample (lat lon : Rat) (timeOfDay : Nat) (online : Bool)
  | watchError
deriving DecidableEq

/-- Process one event: run the handler on the current state, then let the
`[watchId]` effect commits settle.  `Event.watchError` is the error callback of the browser
watch (Tracking.tsx lines 148-155): it only toasts. -/
def step (e : Event) (c : CompState) :
    CompState × List ProviderCall × List Toast :=
  match e with
  | .start env cEnv =>
      let out := startTracking env c.track
      let r := settle cEnv { c with track := out.track }
      (r.1, out.calls ++ r.2.1, out.toasts ++ r.2.2)
  | .stop env cEnv =>
      let out := stopTracking env c.track
      let r := settle cEnv { c with track := out.track }
      (r.1, out.calls ++ r.2.1, out.toasts ++ r.2.2)
  | .sample lat lon timeOfDay online =>
      let t2 := onPositionSample lat lon timeOfDay online c.track
      let r := settle ⟨false, false⟩ { c with track := t2 }
      (r.1, r.2.1, r.2.2)
  | .watchError => (c, [], [locationErrorToast])

/-- Run a sequence of events from the mounted component, accumulating the
provider-call and toast logs. -/
def runTrace (events : List Event) :
    CompState × List ProviderCall × List Toast :=
  events.foldl
    (fun acc e =>
      let r := step e acc.1
      (r.1, acc.2.1 ++ r.2.1, acc.2.2 ++ r.2.2))
    (CompState.init, [], [])

/-- Unmount: React runs the currently registered cleanup, whose closure reads
the `watchId` captured at registration. -/
def unmount (env : StopEnv) (c : CompState) :
    CompState × List ProviderCall × List Toast :=
  match c.regWatchId with
  | none => (c, [], [])
  | some w =>
      let out := stopTrackingWith env (some w) c.track
      ({ c with track := out.track }, out.calls, out.toasts)

/-- Run a sequence of events and then unmount the component. -/
def runTraceThenUnmount (events : List Event) (env : StopEnv) :
    CompState × List ProviderCall × List Toast :=
  let r := runTrace events
  let u := unmount env r.1
  (u.1, r.2.1 ++ u.2.1, r.2.2 ++ u.2.2)

/-- The component states reachable from mount by `start`, `stop` and
provider-callback events. -/
inductive Reachable : CompState → Prop
  | init : Reachable CompState.init
  | step (e : Event) (c : CompState) : Reachable c → Reachable (step e c).1

/-! ### Concrete collaborator environments used as test fixtures -/

/-- Both clear calls succeed. -/
def noThrowStop : StopEnv := ⟨false, false⟩

/-- Authenticated; permissions granted; the Capacitor watch resolves with
handle `w`. -/
def primaryOkEnv (w : String) : StartEnv :=
  { hasSession := true, checkPermissionsThrows := false,
    permissionGranted := true, requestPermissionsThrows := false,
    capacitorWatchId := some w, browserGeolocationAvailable := true,
    browserWatchId := some 7 }

/-- Authenticated; the Capacitor watch rejects and `geolocation in
navigator` is false, so neither provider starts a watch. -/
def bothFailNoBrowserEnv : StartEnv :=
  { hasSession := true, checkPermissionsThrows := false,
    permissionGranted := true, requestPermissionsThrows := false,
    capacitorWatchId := none, browserGeolocationAvailable := false,
    browserWatchId := none }

/-- Authenticated; the Capacitor watch rejects and the browser watch call
throws synchronously, so both providers fail to start. -/
def bothThrowEnv : StartEnv :=
  { hasSession := true, checkPermissionsThrows := false,
    permissionGranted := true, requestPermissionsThrows := false,
    capacitorWatchId := none, browserGeolocationAvailable := true,
    browserWatchId := none }

/-- No authenticated session. -/
def noSessionEnv : StartEnv :=
  { hasSession := false, checkPermissionsThrows := false,
    permissionGranted := true, requestPermissionsThrows := false,
    capacitorWatchId := some "w", browserGeolocationAvailable := true,
    browserWatchId := some 7 }

/-! ### Claims about start/stop -/

/-- Claim C2: whenever the auth collaborator reports no current session,
`startTracking` leaves the state untouched, makes no provider call at all,
surfaces only the authentication-required notification, and navigates to the
login page. -/
theorem start_unauthenticated_no_provider (env : StartEnv) (s : TrackState)
    (h : env.hasSession = false) :
    startTracking env s =
      { track := s, calls := [], toasts := [authRequiredToast],
        navigatedToLogin := true } := by
  simp [startTracking, h]

theorem start_unauthenticated_no_provider_witness :
    startTracking noSessionEnv TrackState.init =
      { track := TrackState.init, calls := [], toasts := [authRequiredToast],
        navigatedToLogin := true } :=
  start_unauthenticated_no_provider noSessionEnv TrackState.init rfl

/-- Claim C10: every completed `stopTracking` call leaves the session fully
reset — watch handle cleared, tracking flag false, advisory empty — for every
behaviour of the provider clear calls (including both of them throwing),
because the reset runs unconditionally after the guarded provider call. -/
theorem stop_always_resets_state (env : StopEnv) (s : TrackState) :
    (stopTracking env s).track.watchId = none ∧
    (stopTracking env s).track.isTracking = false ∧
    (stopTracking env s).track.aiSuggestion = "" := by
  simp [stopTracking, stopTrackingWith]

/-- Claim C8: `stopTracking` while no watch handle is held makes no provider
clear call, raises no error notification (the only toast is the informational
stop toast), and the session stays Idle. -/
theorem stop_while_idle_noop (env : StopEnv) (s : TrackState)
    (h : s.watchId = none) :
    (stopTracking env s).calls = [] ∧
    (stopTracking env s).track.watchId = none ∧
    (stopTracking env s).track.isTracking = false ∧
    (∀ t ∈ (stopTracking env s).toasts, t.destructive = false) := by
  refine ⟨?_, ?_, ?_, ?_⟩ <;>
    simp [stopTracking, stopTrackingWith, h, trackingStoppedToast]

theorem stop_while_idle_noop_witness :
    (stopTracking noThrowStop TrackState.init).calls = [] ∧
    (stopTracking noThrowStop TrackState.init).track.watchId = none ∧
    (stopTracking noThrowStop TrackState.init).track.isTracking = false ∧
    (∀ t ∈ (stopTracking noThrowStop TrackState.init).toasts,
       t.destructive = false) :=
  stop_while_idle_noop noThrowStop TrackState.init rfl

/-- Claim C1 counterexample: with an authenticated session, the primary
watch rejecting, and browser geolocation unavailable — so both providers fail
to start — the session nonetheless ends up Active (`isTracking = true`) with
no watch handle, and the only toast shown is the non-destructive
"Tracking Started" success toast, not a TrackingUnavailable error; the claimed
"state returns to Idle and TrackingUnavailable is reported exactly once" is
false on this reachable input. -/
theorem both_providers_fail_not_idle_cex :
    (runTrace [Event.start bothFailNoBrowserEnv noThrowStop]).1.track.isTracking
        = true ∧
    (runTrace [Event.start bothFailNoBrowserEnv noThrowStop]).1.track.watchId
        = none ∧
    (runTrace [Event.start bothFailNoBrowserEnv noThrowStop]).2.2
        = [trackingStartedToast] ∧
    trackingStartedToast.destructive = false :=
  ⟨rfl, rfl, rfl, rfl⟩

/-- Claim C1 (amended): if the watch of the primary provider rejects during
`startTracking` and browser geolocation is available, the secondary is
attempted with the same options (`highAccuracy = true`, timeout 1000 ms)
before any error is surfaced; if the watch call of the secondary also throws, the
state is left untouched (Idle) and the start-failure notification is shown
exactly once.  If browser geolocation is unavailable, however, the session
transitions to Active with no watch handle and reports success instead of
TrackingUnavailable. -/
theorem provider_fallback_behavior (env : StartEnv) (s : TrackState)
    (hs : env.hasSession = true) (hp : (primaryAttempt env).2 = none) :
    (env.browserGeolocationAvailable = true →
       (startTracking env s).calls =
         (primaryAttempt env).1 ++ [ProviderCall.browserWatch true 1000] ∧
       (env.browserWatchId = none →
          (startTracking env s).track = s ∧
          (startTracking env s).toasts = [startFailedToast]) ∧
       (∀ n, env.browserWatchId = some n →
          (startTracking env s).track.isTracking = true ∧
          (startTracking env s).track.watchId = some (WatchId.web n) ∧
          (startTracking env s).toasts = [trackingStartedToast])) ∧
    (env.browserGeolocationAvailable = false →
       (startTracking env s).calls = (primaryAttempt env).1 ∧
       (startTracking env s).track.isTracking = true ∧
       (startTracking env s).track.watchId = s.watchId ∧
       (startTracking env s).toasts = [trackingStartedToast]) := by
  rcases hpr : primaryAttempt env with ⟨pcalls, res⟩
  rw [hpr] at hp
  simp only at hp
  subst hp
  refine ⟨fun hb => ?_, fun hb => ?_⟩
  · rcases hw : env.browserWatchId with _ | n
    · simp [startTracking, hs, hpr, hb, hw]
    · simp [startTracking, hs, hpr, hb, hw]
  · simp [startTracking, hs, hpr, hb]

theorem provider_fallback_behavior_witness :
    (startTracking bothThrowEnv TrackState.init).track = TrackState.init ∧
    (startTracking bothThrowEnv TrackState.init).toasts = [startFailedToast] :=
  (((provider_fallback_behavior bothThrowEnv TrackState.init rfl rfl).1) rfl).2.1 rfl

/-! ### The watch-handle / Active invariant (claim C3) -/

theorem effectCommit_track_cases (env : StopEnv) (c : CompState) :
    (effectCommit env c).1.track = c.track ∨
      (effectCommit env c).1.track.watchId = none := by
  by_cases h1 : c.track.watchId = c.regWatchId
  · left
    rw [effectCommit_eq_self env h1]
  · rcases hreg : c.regWatchId with _ | w
    · left
      have h : c.track.watchId ≠ none := by rw [hreg] at h1; exact h1
      rw [effectCommit_reg_none env hreg h]
    · right
      have h : c.track.watchId ≠ some w := by rw [hreg] at h1; exact h1
      rw [effectCommit_reg_some env hreg h]
      rfl

theorem track_inv_effectCommit (env : StopEnv) (c : CompState)
    (h : c.track.watchId ≠ none → c.track.isTracking = true) :
    (effectCommit env c).1.track.watchId ≠ none →
      (effectCommit env c).1.track.isTracking = true := by
  rcases effectCommit_track_cases env c with hA | hA
  · rw [hA]
    exact h
  · intro hn
    exact absurd hA hn

theorem track_inv_settle (env : StopEnv) (c : CompState)
    (h : c.track.watchId ≠ none → c.track.isTracking = true) :
    (settle env c).1.track.watchId ≠ none →
      (settle env c).1.track.isTracking = true := by
  show (effectCommit env (effectCommit env c).1).1.track.watchId ≠ none →
      (effectCommit env (effectCommit env c).1).1.track.isTracking = true
  exact track_inv_effectCommit env _ (track_inv_effectCommit env c h)

theorem track_inv_start (env : StartEnv) (s : TrackState)
    (h : s.watchId ≠ none → s.isTracking = true) :
    (startTracking env s).track.watchId ≠ none →
      (startTracking env s).track.isTracking = true := by
  by_cases hs : env.hasSession = false
  · simpa [startTracking, hs] using h
  · rcases hpr : primaryAttempt env with ⟨pcalls, _ | wid⟩
    · by_cases hb : env.browserGeolocationAvailable
      · rcases hw : env.browserWatchId with _ | n
        · simpa [startTracking, hs, hpr, hb, hw] using h
        · simp [startTracking, hs, hpr, hb, hw]
      · simp [startTracking, hs, hpr, hb]
    · simp [startTracking, hs, hpr]

theorem track_inv_step (e : Event) (c : CompState)
    (h : c.track.watchId ≠ none → c.track.isTracking = true) :
    (step e c).1.track.watchId ≠ none →
      (step e c).1.track.isTracking = true := by
  cases e with
  | start env cEnv => exact track_inv_settle cEnv _ (track_inv_start env c.track h)
  | stop env cEnv =>
      exact track_inv_settle cEnv _ (by simp [stopTracking, stopTrackingWith])
  | sample lat lon timeOfDay online => exact track_inv_settle _ _ h
  | watchError => exact h

/-- Claim C3 counterexample: the state reached by a single `start` with an
authenticated session, a rejecting primary watch, and no browser geolocation
is reachable, is Active (`isTracking = true`), yet holds no watch handle —
refuting the claimed "watch handle iff Active" equivalence. -/
theorem watch_iff_active_cex :
    Reachable (step (Event.start bothFailNoBrowserEnv noThrowStop)
                  CompState.init).1 ∧
    (step (Event.start bothFailNoBrowserEnv noThrowStop)
        CompState.init).1.track.isTracking = true ∧
    (step (Event.start bothFailNoBrowserEnv noThrowStop)
        CompState.init).1.track.watchId = none :=
  ⟨Reachable.step _ _ Reachable.init, rfl, rfl⟩

/-- Claim C3 (amended): in every state reachable by any sequence of `start`,
`stop` and provider-callback events, a held watch handle implies the session
is Active (`isTracking = true`).  The converse direction of the claimed
equivalence fails: see the counterexample, where a session is Active with no
handle after both providers fail to start. -/
theorem watch_handle_implies_active (c : CompState) (h : Reachable c) :
    c.track.watchId ≠ none → c.track.isTracking = true := by
  induction h with
  | init => intro hn; exact absurd rfl hn
  | step e c hr ih => exact track_inv_step e c ih

theorem watch_handle_implies_active_witness :
    (step (Event.start (primaryOkEnv "w1") noThrowStop)
        CompState.init).1.track.isTracking = true :=
  watch_handle_implies_active _ (Reachable.step _ _ Reachable.init)
    (by decide)

/-! ### Re-entrant start (claim C4) and teardown (claim C5) -/

/-- Two consecutive successful `start` invocations with no `stop` between
them. -/
def doubleStartTrace (w₁ w₂ : String) : List Event :=
  [Event.start (primaryOkEnv w₁) noThrowStop,
   Event.start (primaryOkEnv w₂) noThrowStop]

/-- True exactly on the watch-opening provider calls. -/
def isWatchOpenCall : ProviderCall → Bool
  | ProviderCall.capacitorWatch _ _ => true
  | ProviderCall.browserWatch _ _ => true
  | _ => false

/-- Claim C4 counterexample: calling `start` a second time without an
intervening `stop` is not rejected — a second provider watch is opened (two
watch-opening calls in the log), and the session does not even remain Active:
the `[watchId]` effect cleanup tears the session down. -/
theorem double_start_opens_second_watch_cex :
    ((runTrace (doubleStartTrace "w1" "w2")).2.1.countP isWatchOpenCall = 2) ∧
    (runTrace (doubleStartTrace "w1" "w2")).1.track.isTracking = false := by
  decide

/-- Claim C4 (amended): a second `start` while Active is not rejected with
AlreadyActive; it opens a second provider watch.  The `[watchId]` effect then
runs its stale cleanup twice, closing first the old and then the new handle,
so the session ends Idle (no handle, not tracking) rather than Active. -/
theorem double_start_behavior (w₁ w₂ : String) (hne : w₁ ≠ w₂) :
    (runTrace (doubleStartTrace w₁ w₂)).2.1 =
      [ProviderCall.checkPermissions, ProviderCall.capacitorWatch true 1000,
       ProviderCall.checkPermissions, ProviderCall.capacitorWatch true 1000,
       ProviderCall.capacitorClearWatch (WatchId.cap w₁),
       ProviderCall.capacitorClearWatch (WatchId.cap w₂)] ∧
    (runTrace (doubleStartTrace w₁ w₂)).1.track.isTracking = false ∧
    (runTrace (doubleStartTrace w₁ w₂)).1.track.watchId = none := by
  have hne2 : w₂ ≠ w₁ := Ne.symm hne
  refine ⟨?_, ?_, ?_⟩ <;>
    simp [doubleStartTrace, runTrace, step, startTracking, primaryAttempt,
      primaryOkEnv, settle, effectCommit, stopTrackingWith, resetTrack,
      CompState.init, TrackState.init, noThrowStop, hne2]

theorem double_start_behavior_witness :
    (runTrace (doubleStartTrace "a" "b")).2.1 =
      [ProviderCall.checkPermissions, ProviderCall.capacitorWatch true 1000,
       ProviderCall.checkPermissions, ProviderCall.capacitorWatch true 1000,
       ProviderCall.capacitorClearWatch (WatchId.cap "a"),
       ProviderCall.capacitorClearWatch (WatchId.cap "b")] ∧
    (runTrace (doubleStartTrace "a" "b")).1.track.isTracking = false ∧
    (runTrace (doubleStartTrace "a" "b")).1.track.watchId = none :=
  double_start_behavior "a" "b" (by decide)

/-- A successful `start` followed by a user `stop`; the component is then
unmounted. -/
def stopThenUnmountTrace : List Event :=
  [Event.start (primaryOkEnv "w") noThrowStop,
   Event.stop noThrowStop noThrowStop]

/-- Claim C5: the code closes the watch twice, not once, when `stop` precedes
teardown.  The user `stop` clears handle `w` and toasts once; the `[watchId]`
effect cleanup then fires (its dependency changed from `w` to `null`) with its
stale closure still reading `w`, calling `stopTracking` — and so
`clearWatch(w)` and the stop toast — a second time.  Unmount itself is a
no-op afterwards, but in total the close and the stop notification each
happen twice, where the claim requires exactly once. -/
theorem stop_then_teardown_double_close :
    (runTraceThenUnmount stopThenUnmountTrace noThrowStop).2.1.count
        (ProviderCall.capacitorClearWatch (WatchId.cap "w")) = 2 ∧
    (runTraceThenUnmount stopThenUnmountTrace noThrowStop).2.2.count
        trackingStoppedToast = 2 := by
  decide

/-! ### TrackHistoryLoader (claim C9) -/

/-- A persisted track record (the `LocationTrack` interface of Tracking.tsx).
`timestamp` is an ISO timestamp string in the source, whose lexicographic
order is chronological; it is modelled as a `Nat`. -/
structure LocationTrack where
  id : String
  user_id : String
  latitude : Rat
  longitude : Rat
  timestamp : Nat
  notes : Option String
deriving DecidableEq

/-- Modelled from the spec: the query execution of the persistence collaborator.
Tracking.tsx (lines 31-40) only builds the request
`location_tracks` select-order-limit request (timestamp
descending, limit 5); the backend that executes it is not part of this repository.
Per spec section 6 the sink exposes `query(order, limit?) -> sequence of
TrackRecord`, i.e. the stored records of the caller sorted by the capture
timestamp in the requested order and truncated to the limit. -/
def queryTracks (stored : List LocationTrack) (ascending : Bool)
    (limit : Nat) : List LocationTrack :=
  (stored.mergeSort (fun a b =>
      if ascending then decide (a.timestamp ≤ b.timestamp)
      else decide (b.timestamp ≤ a.timestamp))).take limit

/-- The `recentTracks` query of Tracking.tsx: timestamp descending, limit 5. -/
def recentTracksQuery (stored : List LocationTrack) : List LocationTrack :=
  queryTracks stored false 5

/-- Claim C9: a history load with limit 5 and descending order over a backing
set of 7 records (with pairwise distinct capture timestamps) returns exactly
5 records, ordered most-recent first, all drawn from the backing set, and
every backing record left out is strictly older than every record returned —
i.e. the result is exactly the 5 records with the greatest timestamps. -/
theorem recent_tracks_query_top5 (stored : List LocationTrack)
    (h7 : stored.length = 7)
    (hnd : (stored.map LocationTrack.timestamp).Nodup) :
    (recentTracksQuery stored).length = 5 ∧
    (recentTracksQuery stored).Pairwise
      (fun a b => b.timestamp < a.timestamp) ∧
    (∀ x ∈ recentTracksQuery stored, x ∈ stored) ∧
    (∀ x ∈ stored, x ∉ recentTracksQuery stored →
       ∀ y ∈ recentTracksQuery stored, x.timestamp < y.timestamp) := by
  classical
  set le : LocationTrack → LocationTrack → Bool :=
    fun a b => decide (b.timestamp ≤ a.timestamp) with hle
  have hquery : recentTracksQuery stored = (stored.mergeSort le).take 5 := by
    simp [recentTracksQuery, queryTracks, hle]
  set l : List LocationTrack := stored.mergeSort le with hl
  have hperm : l.Perm stored := List.mergeSort_perm stored le
  have hsorted : l.Pairwise (fun a b => b.timestamp ≤ a.timestamp) := by
    have h0 : l.Pairwise (fun a b => le a b) := by
      refine List.sorted_mergeSort ?_ ?_ stored
      · intro a b c hab hbc
        simp only [hle, decide_eq_true_eq] at hab hbc ⊢
        omega
      · intro a b
        simp only [hle, Bool.or_eq_true, decide_eq_true_eq]
        omega
    exact h0.imp (fun hab => by simpa [hle] using hab)
  have hndl : (l.map LocationTrack.timestamp).Nodup :=
    ((hperm.map LocationTrack.timestamp).nodup_iff).mpr hnd
  have htake : (l.take 5).Sublist l := List.take_sublist 5 l
  refine ⟨?_, ?_, ?_, ?_⟩
  · have hlen : l.length = 7 := by rw [hl, List.length_mergeSort]; exact h7
    rw [hquery, List.length_take, hlen]
    decide
  · rw [hquery]
    have hs : (l.take 5).Pairwise (fun a b => b.timestamp ≤ a.timestamp) :=
      hsorted.sublist htake
    have hne : (l.take 5).Pairwise
        (fun a b => a.timestamp ≠ b.timestamp) := by
      have : ((l.take 5).map LocationTrack.timestamp).Nodup :=
        hndl.sublist (htake.map LocationTrack.timestamp)
      exact (List.pairwise_map).mp this
    exact (hs.and hne).imp (fun h => by omega)
  · intro x hx
    rw [hquery] at hx
    exact hperm.mem_iff.mp (List.take_subset 5 l hx)
  · intro x hxs hxr y hyr
    rw [hquery] at hxr hyr
    have hxl : x ∈ l := hperm.mem_iff.mpr hxs
    have hxd : x ∈ l.drop 5 := by
      have hxl2 : x ∈ l.take 5 ++ l.drop 5 := by
        rw [List.take_append_drop 5 l]
        exact hxl
      rcases List.mem_append.mp hxl2 with h | h
      · exact absurd h hxr
      · exact h
    have hcross : ∀ a ∈ l.take 5, ∀ b ∈ l.drop 5,
        b.timestamp ≤ a.timestamp := by
      have := hsorted
      rw [← List.take_append_drop 5 l] at this
      exact (List.pairwise_append.mp this).2.2
    have hle2 : x.timestamp ≤ y.timestamp := hcross y hyr x hxd
    have hney : x ≠ y := fun hxy => hxr (hxy ▸ hyr)
    have hnet : x.timestamp ≠ y.timestamp := fun hts =>
      hney (List.inj_on_of_nodup_map hnd hxs
        (hperm.mem_iff.mp (List.take_subset 5 l hyr)) hts)
    omega

/-- Seven backing records with distinct timestamps, used to instantiate the
history-load claim. -/
def sampleTracks : List LocationTrack :=
  [⟨"r1", "u", 1, 2, 11, none⟩, ⟨"r2", "u", 3, 4, 14, none⟩,
   ⟨"r3", "u", 5, 6, 12, none⟩, ⟨"r4", "u", 7, 8, 17, none⟩,
   ⟨"r5", "u", 9, 10, 13, none⟩, ⟨"r6", "u", 11, 12, 16, none⟩,
   ⟨"r7", "u", 13, 14, 15, none⟩]

theorem recent_tracks_query_top5_witness :
    sampleTracks.length = 7 ∧
    (sampleTracks.map LocationTrack.timestamp).Nodup ∧
    ((recentTracksQuery sampleTracks).length = 5 ∧
     (recentTracksQuery sampleTracks).Pairwise
       (fun a b => b.timestamp < a.timestamp) ∧
     (∀ x ∈ recentTracksQuery sampleTracks, x ∈ sampleTracks) ∧
     (∀ x ∈ sampleTracks, x ∉ recentTracksQuery sampleTracks →
        ∀ y ∈ recentTracksQuery sampleTracks, x.timestamp < y.timestamp)) :=
  ⟨rfl, by decide,
   recent_tracks_query_top5 sampleTracks rfl (by decide)⟩

end SyncroDrive
